import Mathlib

/-!
Verification of the Uni Doc template-portal application (`src/major/src/App.tsx`).

The source file holds two variants of the application:
* `Download` — the download-only variant (no persistence; first part of the file),
* `Persist` — the persistence variant that saves documents to Firestore and
  lists save history (second part of the file).

JavaScript string primitives used by the source (`endsWith`, `trim`,
`toLowerCase`, `includes`, `split`, `startsWith`) are modelled below as
executable functions over the character list of a Lean `String`.
-/

set_option maxRecDepth 8000

namespace UniDoc

/-- Model of JS `String.prototype.endsWith`. -/
def jsEndsWith (s suffix : String) : Bool :=
  List.isSuffixOf suffix.data s.data

/-- Model of JS `String.prototype.startsWith`. -/
def jsStartsWith (s pre : String) : Bool :=
  List.isPrefixOf pre.data s.data

/-- Model of JS `String.prototype.toLowerCase` (ASCII range suffices here). -/
def jsToLower (s : String) : String :=
  ⟨s.data.map Char.toLower⟩

/-- Boolean contiguous-sublist test on character lists. -/
def listIsInfixOf (sub : List Char) : List Char → Bool
  | [] => sub.isEmpty
  | c :: t => List.isPrefixOf sub (c :: t) || listIsInfixOf sub t

/-- Model of JS `String.prototype.includes` (substring containment). -/
def jsIncludes (s sub : String) : Bool :=
  listIsInfixOf sub.data s.data

/-- Model of JS `String.prototype.trim` on a character list. -/
def jsTrimList (l : List Char) : List Char :=
  ((l.dropWhile Char.isWhitespace).reverse.dropWhile Char.isWhitespace).reverse

/-- Model of JS `String.prototype.trim`. -/
def jsTrim (s : String) : String :=
  ⟨jsTrimList s.data⟩

/-- Model of JS `String.prototype.split` at a newline character. JS
`"".split(sep)` yields `[""]`, so the empty list of characters maps to one
empty segment. -/
def splitNlList : List Char → List (List Char)
  | [] => [[]]
  | c :: cs =>
    match splitNlList cs with
    | [] => [[]]
    | l :: ls => if c = '\n' then [] :: l :: ls else (c :: l) :: ls

/-- Model of JS `s.split('\n')`. -/
def jsSplitNl (s : String) : List String :=
  (splitNlList s.data).map String.mk

-- --- DATA MODEL ---

/-- `interface Template` (App.tsx lines 62-67 and 1220-1225). -/
structure Template where
  id : String
  title : String
  description : String
  initialContent : String
deriving DecidableEq

/-- The fields of a Firebase `User` that the application reads: `uid`,
`isAnonymous`, `email`. -/
structure User where
  uid : String
  isAnonymous : Bool
  email : Option String
deriving DecidableEq

/-- `const APP_DOMAIN = '@kiit.ac.in'` (App.tsx lines 47 and 906). -/
def APP_DOMAIN : String := "@kiit.ac.in"

-- --- SESSION PROVIDER (`useFirebase`, App.tsx lines 111-168 / 924-988) ---

/-- The React state `currentUser : User | null | undefined`.
`unresolved` is the initial `undefined` (no auth notification received yet);
`resolved u` covers `null` (signed out) and a signed-in user. -/
inductive CurrentUser
  | unresolved
  | resolved (user : Option User)
deriving DecidableEq

/-- State of the `useFirebase` hook: the exposed `currentUser`, the mutable
closure flag `initialUserCheck`, and a count of `signInAnonymously` calls
issued (to reason about the one-shot side effect). -/
structure ProviderState where
  currentUser : CurrentUser
  initialUserCheck : Bool
  anonSignIns : Nat
deriving DecidableEq

/-- Provider state right after subscribing: `currentUser` is `undefined`,
`initialUserCheck = true`, no anonymous sign-in issued. -/
def providerInit : ProviderState := ⟨CurrentUser.unresolved, true, 0⟩

/-- The `onAuthStateChanged` callback (App.tsx lines 131-158 / 947-976).
It stores the notified user; on the first notification only, if no user is
present it issues the initial sign-in (anonymous unless a pre-provisioned
`initialAuthToken` exists), and the one-shot flag is cleared (the notified
value is never `undefined`, so `user !== undefined` always clears it). -/
def onAuthNotif (initialAuthToken : Option String) (s : ProviderState)
    (user : Option User) : ProviderState :=
  let s1 := { s with currentUser := CurrentUser.resolved user }
  if !s1.initialUserCheck then s1
  else
    let s2 :=
      if user.isNone && initialAuthToken.isNone then
        { s1 with anonSignIns := s1.anonSignIns + 1 }
      else s1
    { s2 with initialUserCheck := false }

/-- Process a whole sequence of auth-state notifications from the initial
provider state. -/
def runProvider (initialAuthToken : Option String)
    (notifs : List (Option User)) : ProviderState :=
  notifs.foldl (onAuthNotif initialAuthToken) providerInit

/-- `isLoading: currentUser === undefined` (App.tsx lines 167 / 987). -/
def isLoading (s : ProviderState) : Bool :=
  match s.currentUser with
  | CurrentUser.unresolved => true
  | CurrentUser.resolved _ => false

-- --- AUTH MODAL (`handleSubmit`, App.tsx lines 246-272 / 1084-1111) ---

/-- Outcome of one submission of the login/registration form. The two
`external` constructors record that the external identity service was
contacted (`signInWithEmailAndPassword` / `createUserWithEmailAndPassword`). -/
inductive AuthSubmitOutcome
  | validationError (message : String)
  | serviceNotReady (message : String)
  | externalSignIn (email password : String)
  | externalCreate (email password : String)
deriving DecidableEq

/-- `AuthModal.handleSubmit` (identical in both variants): reject emails
outside `APP_DOMAIN` locally, then require the auth instance, then call the
external service for login or sign-up. -/
def handleSubmit (authReady : Bool) (isLogin : Bool)
    (email password : String) : AuthSubmitOutcome :=
  if !(jsEndsWith email APP_DOMAIN) then
    AuthSubmitOutcome.validationError
      ("Only " ++ APP_DOMAIN ++ " emails are allowed.")
  else if !authReady then
    AuthSubmitOutcome.serviceNotReady "Authentication service is not ready."
  else if isLogin then
    AuthSubmitOutcome.externalSignIn email password
  else
    AuthSubmitOutcome.externalCreate email password

/-- Whether an `AuthModal.handleSubmit` outcome contacted the external
identity service. -/
def contactsIdentityService : AuthSubmitOutcome → Bool
  | AuthSubmitOutcome.externalSignIn _ _ => true
  | AuthSubmitOutcome.externalCreate _ _ => true
  | _ => false

-- --- DOCX EXPORT (`downloadDOCX`, App.tsx lines 189-218) ---

/-- Drop the characters between `<` and `>` from a character stream
(the boolean tracks whether we are inside a tag). -/
def stripTagsAux : Bool → List Char → List Char
  | _, [] => []
  | inTag, c :: cs =>
    if c = '<' then stripTagsAux true cs
    else if c = '>' then stripTagsAux false cs
    else if inTag then stripTagsAux true cs
    else c :: stripTagsAux false cs

/-- Modelled from the spec: the browser DOM `textContent` of a detached `div`
whose `innerHTML` was set to `html` — the document's flattened text with all
markup tags stripped (the DOM itself is an external collaborator). -/
def domTextContent (html : String) : String :=
  ⟨stripTagsAux false html.data⟩

/-- `downloadDOCX` (App.tsx lines 189-218), reduced to the produced paragraph
texts: the content is flattened through the DOM (`tempDiv.textContent ||
contentHTML`, falling back to the raw HTML when the flattened text is empty)
and split at newlines, one `Paragraph` per line. -/
def downloadDOCX (contentHTML : String) : List String :=
  let textContent :=
    if domTextContent contentHTML = "" then contentHTML
    else domTextContent contentHTML
  jsSplitNl textContent

/-- Visible text of a produced DOCX document: its paragraph texts, one per
line. -/
def docxVisibleText : List String → String
  | [] => ""
  | [p] => p
  | p :: ps => p ++ "\n" ++ docxVisibleText ps

-- --- VIEW STATE (shared shape of both variants) ---

/-- `type ActiveView = 'list' | 'editor' | 'history'` (App.tsx lines 681 /
1260). -/
inductive ActiveView
  | list
  | editor
  | history
deriving DecidableEq

-- --- DOWNLOAD-ONLY VARIANT (first part of App.tsx) ---

namespace Download

/-- `TEMPLATES` of the download-only variant (App.tsx lines 467-471):
initial contents are HTML. -/
def TEMPLATES : List Template :=
  [ { id := "app_ltr", title := "Appointment Letter Template",
      description := "Standard format for new staff or faculty.",
      initialContent := "<p>Dear [Name],</p><p>We are pleased to offer you the position of [Title] at the KIIT Activity Centre...</p>" },
    { id := "leave_form", title := "Leave Application Form",
      description := "Internal form for staff leave requests.",
      initialContent := "<p>This is a request for leave from [Date] to [Date]...</p>" },
    { id := "equip_req", title := "Equipment Request Form",
      description := "Internal form for center supplies.",
      initialContent := "<p>Item: [Item Name], Quantity: [Number], Justification: [Reason]...</p>" } ]

/-- `handleSearch` (App.tsx lines 695-706): a query that trims to the empty
string restores the full catalog; otherwise templates are kept when their
lower-cased title contains the lower-cased query. Returns the resulting
`filteredTemplates`. -/
def handleSearch (query : String) : List Template :=
  if jsTrim query = "" then TEMPLATES
  else
    TEMPLATES.filter fun template =>
      jsIncludes (jsToLower template.title) (jsToLower query)

/-- Navigation state of the download-only `App` (lines 683-795): the active
view, the selected template, and the mounted `DocumentEditor` content state
(`some` exactly while an editor instance is mounted; destroyed on unmount). -/
structure AppState where
  activeView : ActiveView
  selectedTemplate : Option Template
  editorContent : Option String
deriving DecidableEq

/-- Initial state: `activeView = 'list'`, no template selected. -/
def appInit : AppState := ⟨ActiveView.list, none, none⟩

/-- User-navigation actions of the download-only variant. -/
inductive NavAction
  | selectTemplate (t : Template)
  | back
  | goList
  | viewHistory
  | edit (s : String)

/-- One user-navigation step of the download-only `App`:
* `selectTemplate` (`handleSelectTemplate`, lines 746-749) is offered by the
  `TemplateList`, which is rendered only in the `list` view; it mounts a fresh
  `DocumentEditor` whose `content` state initializes to
  `template.initialContent` (line 377);
* `back` / `goList` (`setActiveView('list')`) unmount the editor, destroying
  its content state;
* `viewHistory` (`handleViewHistory`, lines 741-744) alerts that history is
  disabled and unconditionally sets the view to `history`;
* `edit` replaces the mounted editor's content (lines 387-391). -/
def navStep (s : AppState) : NavAction → AppState
  | NavAction.selectTemplate t =>
    if s.activeView = ActiveView.list then
      ⟨ActiveView.editor, some t, some t.initialContent⟩
    else s
  | NavAction.back =>
    { s with activeView := ActiveView.list, editorContent := none }
  | NavAction.goList =>
    { s with activeView := ActiveView.list, editorContent := none }
  | NavAction.viewHistory =>
    { s with activeView := ActiveView.history, editorContent := none }
  | NavAction.edit str =>
    if s.activeView = ActiveView.editor then
      { s with editorContent := s.editorContent.map fun _ => str }
    else s

/-- Run a sequence of navigation actions. -/
def navRun (s : AppState) (acts : List NavAction) : AppState :=
  acts.foldl navStep s

end Download

/-- The Template Catalog filter exactly as the spec words it: the templates
whose title contains the query case-insensitively, in original catalog order
(empty query trivially matches every title). -/
def specTitleFilter (query : String) : List Template :=
  Download.TEMPLATES.filter fun t => jsIncludes (jsToLower t.title) (jsToLower query)

-- --- PERSISTENCE VARIANT (second part of App.tsx) ---

namespace Persist

/-- `TEMPLATES` of the persistence variant (App.tsx lines 1227-1231):
initial contents are plain text. -/
def TEMPLATES : List Template :=
  [ { id := "app_ltr", title := "Appointment Letter Template",
      description := "Standard format for new staff or faculty.",
      initialContent := "Dear [Name],\nWe are pleased to offer you the position of [Title] at the KIIT Activity Centre..." },
    { id := "leave_form", title := "Leave Application Form",
      description := "Internal form for staff leave requests.",
      initialContent := "This is a request for leave from [Date] to [Date]..." },
    { id := "equip_req", title := "Equipment Request Form",
      description := "Internal form for center supplies.",
      initialContent := "Item: [Item Name], Quantity: [Number], Justification: [Reason]..." } ]

/-- `const appId = ... : 'default-app-id'` (App.tsx line 908). -/
def appId : String := "default-app-id"

/-- The `userId` the `DocumentEditor` receives (App.tsx lines 985 and 1332):
`currentUser ? currentUser.uid : ` the locally generated fallback
`anon-${appId}-${crypto.randomUUID()}`. -/
def editorUserId (currentUser : Option User) (fallbackUuid : String) : String :=
  match currentUser with
  | some u => u.uid
  | none => "anon-" ++ appId ++ "-" ++ fallbackUuid

/-- Observable effects of a save attempt. `storePut` is the Firestore
`setDoc` on `/artifacts/{appId}/users/{userId}/documents/{docId}` — the
external document store being contacted. -/
inductive SaveEffect
  | loginRequiredAlert
  | storePut
  | unavailableLog
deriving DecidableEq

/-- `saveDocument` (App.tsx lines 1002-1031): logs and returns when the
database or user id is unavailable, otherwise issues the Firestore `setDoc`. -/
def saveDocument (dbReady : Bool) (userId : String) : List SaveEffect :=
  if !dbReady || userId = "" then [SaveEffect.unavailableLog]
  else [SaveEffect.storePut]

/-- `handleSave` of the persistence `DocumentEditor` (App.tsx lines
1169-1181): alerts and returns when `userId.startsWith('anon-')`, otherwise
calls `saveDocument` when the database handle exists. -/
def handleSave (dbReady : Bool) (userId : String) : List SaveEffect :=
  if jsStartsWith userId "anon-" then [SaveEffect.loginRequiredAlert]
  else if dbReady then saveDocument dbReady userId
  else []

/-- Observable effects of a history-navigation attempt. `storeQuery` is the
Firestore `getDocs` query; `historyLoginAlert` is the blocking notice shown
to unauthenticated users. -/
inductive NavEffect
  | storeQuery
  | historyLoginAlert
deriving DecidableEq

/-- The query side of `fetchHistory` (App.tsx lines 1033-1055): no query is
issued when the database or user id is unavailable; otherwise one store query
(ordered by `createdAt` descending, limit 10) is issued. -/
def fetchHistoryEffects (dbReady : Bool) (userId : String) : List NavEffect :=
  if !dbReady || userId = "" then []
  else [NavEffect.storeQuery]

/-- `isAuthenticated = !!(currentUser && !currentUser.isAnonymous)`
(App.tsx line 1366). -/
def isAuthenticated (currentUser : Option User) : Bool :=
  match currentUser with
  | some u => !u.isAnonymous
  | none => false

/-- Navigation state of the persistence `App` (lines 1262-1363). -/
structure AppState where
  activeView : ActiveView
  selectedTemplate : Option Template
  editorContent : Option String
deriving DecidableEq

/-- Initial state: `activeView = 'list'`, no template selected. -/
def appInit : AppState := ⟨ActiveView.list, none, none⟩

/-- User-navigation actions of the persistence variant. `viewHistory` is
reachable both from the sidebar (line 1402) and from the editor's own
`View History` button (line 1191). -/
inductive NavAction
  | selectTemplate (t : Template)
  | back
  | goList
  | viewHistory
  | edit (s : String)

/-- One user-navigation step of the persistence `App`, returning the next
state and the effects issued:
* `selectTemplate` (`handleSelectTemplate`, lines 1306-1309) mounts a fresh
  `DocumentEditor` initialized to `template.initialContent` (line 1166);
* `back` / `goList` return to the list, unmounting the editor;
* `viewHistory` (`handleViewHistory`, lines 1296-1304): when the database is
  ready and the user is signed in and not anonymous, it fetches history and
  switches to the `history` view; otherwise it alerts and leaves the view
  unchanged;
* `edit` replaces the mounted editor's content (line 1204). -/
def navStep (dbReady : Bool) (currentUser : Option User) (s : AppState) :
    NavAction → AppState × List NavEffect
  | NavAction.selectTemplate t =>
    if s.activeView = ActiveView.list then
      (⟨ActiveView.editor, some t, some t.initialContent⟩, [])
    else (s, [])
  | NavAction.back =>
    ({ s with activeView := ActiveView.list, editorContent := none }, [])
  | NavAction.goList =>
    ({ s with activeView := ActiveView.list, editorContent := none }, [])
  | NavAction.viewHistory =>
    match currentUser with
    | some u =>
      if dbReady && !u.isAnonymous then
        ({ s with activeView := ActiveView.history, editorContent := none },
          fetchHistoryEffects dbReady u.uid)
      else (s, [NavEffect.historyLoginAlert])
    | none => (s, [NavEffect.historyLoginAlert])
  | NavAction.edit str =>
    if s.activeView = ActiveView.editor then
      ({ s with editorContent := s.editorContent.map fun _ => str }, [])
    else (s, [])

/-- Run a sequence of navigation actions, keeping only the states. -/
def navRun (dbReady : Bool) (currentUser : Option User) (s : AppState)
    (acts : List NavAction) : AppState :=
  acts.foldl (fun st a => (navStep dbReady currentUser st a).1) s

/-- The sequence of `activeView` values visited while running `acts` from
`s` (the initial view followed by the view after each action). -/
def viewTrace (dbReady : Bool) (currentUser : Option User) (s : AppState)
    (acts : List NavAction) : List ActiveView :=
  (acts.scanl (fun st a => (navStep dbReady currentUser st a).1) s).map
    AppState.activeView

end Persist

-- --- HELPER LEMMAS ---

/-- Every auth-state notification leaves the provider resolved. -/
theorem isLoading_onAuthNotif (tok : Option String) (s : ProviderState)
    (u : Option User) : isLoading (onAuthNotif tok s u) = false := by
  cases s with
  | mk cu flag cnt =>
    cases flag <;> cases hu : u.isNone <;> cases ht : tok.isNone <;>
      simp [onAuthNotif, isLoading, hu, ht]

/-- Once resolved, further notifications keep the provider resolved. -/
theorem isLoading_foldl_false (tok : Option String) :
    ∀ (ns : List (Option User)) (s : ProviderState),
      isLoading s = false →
      isLoading (ns.foldl (onAuthNotif tok) s) = false := by
  intro ns
  induction ns with
  | nil => intro s h; exact h
  | cons n rest ih =>
    intro s _
    rw [List.foldl_cons]
    exact ih _ (isLoading_onAuthNotif tok s n)

/-- Every notification clears the provider's one-shot flag. -/
theorem onAuthNotif_flag_clear (tok : Option String) (s : ProviderState)
    (u : Option User) : (onAuthNotif tok s u).initialUserCheck = false := by
  cases s with
  | mk cu flag cnt =>
    cases flag <;> cases hu : u.isNone <;> cases ht : tok.isNone <;>
      simp [onAuthNotif, hu, ht]

/-- With the one-shot flag already cleared, a notification issues no
anonymous sign-in. -/
theorem onAuthNotif_count_stable (tok : Option String) (s : ProviderState)
    (u : Option User) (h : s.initialUserCheck = false) :
    (onAuthNotif tok s u).anonSignIns = s.anonSignIns := by
  cases s with
  | mk cu flag cnt =>
    cases hu : u.isNone <;> cases ht : tok.isNone <;>
      simp_all [onAuthNotif]

/-- With the one-shot flag cleared, no later notification sequence changes
the anonymous sign-in count. -/
theorem foldl_count_stable (tok : Option String) :
    ∀ (l : List (Option User)) (s : ProviderState),
      s.initialUserCheck = false →
      (l.foldl (onAuthNotif tok) s).anonSignIns = s.anonSignIns := by
  intro l
  induction l with
  | nil => intro s _; rfl
  | cons m ms ih =>
    intro s h
    rw [List.foldl_cons, ih _ (onAuthNotif_flag_clear tok s m)]
    exact onAuthNotif_count_stable tok s m h

/-- The first notification issues the anonymous sign-in exactly when it
carries no user and no pre-provisioned token exists. -/
theorem onAuthNotif_first_count (tok : Option String) (n : Option User) :
    (onAuthNotif tok providerInit n).anonSignIns =
      if n = none ∧ tok = none then 1 else 0 := by
  cases n <;> cases tok <;> simp [onAuthNotif, providerInit]

-- --- CLAIM THEOREMS ---

/-- Claim C1 (code bug, evaluated at the failing input): the persistence
variant's `handleSave` gates on `userId.startsWith('anon-')`, which only
matches the locally generated fallback id used when nobody is signed in; a
signed-in anonymous Firebase session passes its `uid` (here `"u1fb"`), the
gate misses it, and the save reaches the external store (`storePut`) instead
of being denied — contradicting the code's own comment (line 1170,
"Prevent saving if the user is anonymous") and the claim. -/
theorem anonymous_save_reaches_store :
    (⟨"u1fb", true, none⟩ : User).isAnonymous = true ∧
    Persist.handleSave true
        (Persist.editorUserId (some ⟨"u1fb", true, none⟩) "xyz")
      = [Persist.SaveEffect.storePut] := by decide

/-- Claim C2 (counterexample): with the store ready and an authenticated
session, the reachable action sequence "select the leave template, press the
editor's View History button" drives the view from `list` to `editor` and
then directly to `history` — no pass through `list` between `editor` and
`history`. -/
theorem editor_to_history_without_list :
    (⟨"leave_form", "Leave Application Form",
        "Internal form for staff leave requests.",
        "This is a request for leave from [Date] to [Date]..."⟩ : Template)
      ∈ Persist.TEMPLATES ∧
    Persist.viewTrace true (some ⟨"alice", false, some "alice@kiit.ac.in"⟩)
        Persist.appInit
        [Persist.NavAction.selectTemplate
          ⟨"leave_form", "Leave Application Form",
            "Internal form for staff leave requests.",
            "This is a request for leave from [Date] to [Date]..."⟩,
         Persist.NavAction.viewHistory]
      = [ActiveView.list, ActiveView.editor, ActiveView.history] := by decide

/-- Claim C2 (amended): the View Router does permit a direct transition from
`Editor` to `History`: from the editor view, the View History action moves
the view straight to `history` whenever the store is ready and the session
is authenticated (signed in and not anonymous). -/
theorem editor_view_history_goes_direct (dbReady : Bool) (u : User)
    (s : Persist.AppState) (hdb : dbReady = true)
    (hu : u.isAnonymous = false) (hv : s.activeView = ActiveView.editor) :
    (Persist.navStep dbReady (some u) s
        Persist.NavAction.viewHistory).1.activeView = ActiveView.history := by
  subst hdb
  simp [Persist.navStep, hu]

/-- Witness for the amended C2 theorem at a concrete editor state. -/
theorem editor_view_history_goes_direct_witness :
    (true : Bool) = true ∧
    (⟨"alice", false, some "alice@kiit.ac.in"⟩ : User).isAnonymous = false ∧
    (⟨ActiveView.editor, none, none⟩ : Persist.AppState).activeView
      = ActiveView.editor ∧
    (Persist.navStep true (some ⟨"alice", false, some "alice@kiit.ac.in"⟩)
        ⟨ActiveView.editor, none, none⟩
        Persist.NavAction.viewHistory).1.activeView = ActiveView.history :=
  ⟨rfl, rfl, rfl,
    editor_view_history_goes_direct true
      ⟨"alice", false, some "alice@kiit.ac.in"⟩
      ⟨ActiveView.editor, none, none⟩ rfl rfl rfl⟩

/-- Claim C3: an email that does not end with `@kiit.ac.in` makes
`AuthModal.handleSubmit` fail locally with the validation message, and the
external identity service is never contacted. -/
theorem wrong_domain_fails_locally (authReady isLogin : Bool)
    (email password : String)
    (h : jsEndsWith email APP_DOMAIN = false) :
    handleSubmit authReady isLogin email password =
      AuthSubmitOutcome.validationError
        ("Only " ++ APP_DOMAIN ++ " emails are allowed.") ∧
    contactsIdentityService (handleSubmit authReady isLogin email password)
      = false := by
  simp [handleSubmit, h, contactsIdentityService]

/-- Witness for the C3 theorem at a concrete out-of-domain email. -/
theorem wrong_domain_fails_locally_witness :
    jsEndsWith "user@gmail.com" APP_DOMAIN = false ∧
    (handleSubmit true true "user@gmail.com" "pw" =
      AuthSubmitOutcome.validationError
        ("Only " ++ APP_DOMAIN ++ " emails are allowed.") ∧
     contactsIdentityService (handleSubmit true true "user@gmail.com" "pw")
       = false) :=
  ⟨by decide,
    wrong_domain_fails_locally true true "user@gmail.com" "pw" (by decide)⟩

/-- Claim C4 (counterexample): the tab-only query is not the empty query,
yet `handleSearch` returns the full catalog while no template title contains
a tab — so filtering does not return "exactly the templates whose title
contains the query". -/
theorem tab_query_breaks_title_filter :
    ("\t" : String) ≠ "" ∧
    Download.handleSearch "\t" = Download.TEMPLATES ∧
    specTitleFilter "\t" = [] := by decide

/-- Claim C4 (amended): every query that trims to the empty string
(the empty query and whitespace-only queries) returns the full fixed catalog
in original order; every other query returns exactly the templates whose
title contains the query case-insensitively, and the result is always a
sublist of the catalog (original order, no reordering). -/
theorem search_filters_by_title (query : String) :
    Download.handleSearch query =
      (if jsTrim query = "" then Download.TEMPLATES
       else specTitleFilter query) ∧
    List.Sublist (Download.handleSearch query) Download.TEMPLATES := by
  refine ⟨rfl, ?_⟩
  unfold Download.handleSearch
  split
  · exact List.Sublist.refl _
  · exact List.filter_sublist _

/-- Claim C5: any History-navigation attempt while the session is
unauthenticated (signed out or anonymous) issues no store query: the state
is unchanged and the only effect is the blocking log-in notice. -/
theorem unauthenticated_history_denied (dbReady : Bool)
    (currentUser : Option User) (s : Persist.AppState)
    (h : Persist.isAuthenticated currentUser = false) :
    Persist.navStep dbReady currentUser s Persist.NavAction.viewHistory
      = (s, [Persist.NavEffect.historyLoginAlert]) := by
  cases currentUser with
  | none => rfl
  | some u =>
    simp [Persist.isAuthenticated] at h
    simp [Persist.navStep, h]

/-- Witness for the C5 theorem at a concrete anonymous session. -/
theorem unauthenticated_history_denied_witness :
    Persist.isAuthenticated (some ⟨"u1fb", true, none⟩) = false ∧
    Persist.navStep true (some ⟨"u1fb", true, none⟩) Persist.appInit
        Persist.NavAction.viewHistory
      = (Persist.appInit, [Persist.NavEffect.historyLoginAlert]) :=
  ⟨by decide,
    unauthenticated_history_denied true (some ⟨"u1fb", true, none⟩)
      Persist.appInit (by decide)⟩

/-- Claim C6: `isLoading` is true exactly when no auth-state notification
has been received; after the first notification it is false for every later
notification sequence, whatever sign-ins and sign-outs follow. -/
theorem loading_iff_no_notification (initialAuthToken : Option String)
    (notifs : List (Option User)) :
    isLoading (runProvider initialAuthToken notifs) = true ↔ notifs = [] := by
  cases notifs with
  | nil => simp [runProvider, providerInit, isLoading]
  | cons n rest =>
    have hfalse :
        isLoading (rest.foldl (onAuthNotif initialAuthToken)
          (onAuthNotif initialAuthToken providerInit n)) = false :=
      isLoading_foldl_false initialAuthToken rest _
        (isLoading_onAuthNotif initialAuthToken providerInit n)
    simp [runProvider, hfalse]

/-- Claim C7: over any notification sequence, the anonymous sign-in is
issued exactly once when the first notification resolves with no user and no
pre-provisioned token exists, and zero times otherwise — in particular at
most once per lifetime and never after the first notification, including
after an explicit sign-out. -/
theorem anon_signin_at_most_once (initialAuthToken : Option String)
    (notifs : List (Option User)) :
    (runProvider initialAuthToken notifs).anonSignIns =
      if notifs.head? = some none ∧ initialAuthToken = none then 1
      else 0 := by
  cases notifs with
  | nil => simp [runProvider, providerInit]
  | cons n rest =>
    have h1 := onAuthNotif_flag_clear initialAuthToken providerInit n
    have h2 := foldl_count_stable initialAuthToken rest _ h1
    simp only [runProvider, List.foldl_cons] at *
    rw [h2, onAuthNotif_first_count]
    simp

/-- Claim C8: `downloadDOCX` flattens the HTML content through the DOM and
builds one paragraph per line of the flattened text; on content
`"<p>A</p><p>B</p>"` the produced document is the single paragraph `"AB"`,
whose visible text equals the HTML's flattened text content with the tags
stripped. -/
theorem docx_flattens_to_paragraphs :
    (∀ contentHTML, domTextContent contentHTML ≠ "" →
        downloadDOCX contentHTML = jsSplitNl (domTextContent contentHTML)) ∧
    downloadDOCX "<p>A</p><p>B</p>" = ["AB"] ∧
    docxVisibleText (downloadDOCX "<p>A</p><p>B</p>")
      = domTextContent "<p>A</p><p>B</p>" := by
  refine ⟨?_, by decide, by decide⟩
  intro contentHTML h
  simp [downloadDOCX, h]

/-- Witness for the C8 theorem's universal part at a concrete content. -/
theorem docx_flattens_to_paragraphs_witness :
    domTextContent "<p>A</p><p>B</p>" ≠ "" ∧
    downloadDOCX "<p>A</p><p>B</p>"
      = jsSplitNl (domTextContent "<p>A</p><p>B</p>") :=
  ⟨by decide, docx_flattens_to_paragraphs.1 "<p>A</p><p>B</p>" (by decide)⟩

/-- Claim C9: selecting a catalog template, performing any sequence of
edits, navigating back to the list and selecting the same template again
leaves a freshly mounted editor whose content is exactly
`t.initialContent` — no prior edit survives the round trip. -/
theorem reselect_resets_content (t : Template) (edits : List String)
    (s : Download.AppState) (ht : t ∈ Download.TEMPLATES)
    (hs : s.activeView = ActiveView.list) :
    Download.navRun s
        ([Download.NavAction.selectTemplate t]
          ++ edits.map Download.NavAction.edit
          ++ [Download.NavAction.back, Download.NavAction.selectTemplate t])
      = ⟨ActiveView.editor, some t, some t.initialContent⟩ := by
  unfold Download.navRun
  simp only [List.singleton_append, List.cons_append, List.foldl_cons,
    List.foldl_append, List.foldl_nil]
  rfl

/-- Witness for the C9 theorem: the appointment-letter template, one edit,
from the initial state. -/
theorem reselect_resets_content_witness :
    (⟨"app_ltr", "Appointment Letter Template",
        "Standard format for new staff or faculty.",
        "<p>Dear [Name],</p><p>We are pleased to offer you the position of [Title] at the KIIT Activity Centre...</p>"⟩ : Template)
      ∈ Download.TEMPLATES ∧
    Download.appInit.activeView = ActiveView.list ∧
    Download.navRun Download.appInit
        ([Download.NavAction.selectTemplate
            ⟨"app_ltr", "Appointment Letter Template",
              "Standard format for new staff or faculty.",
              "<p>Dear [Name],</p><p>We are pleased to offer you the position of [Title] at the KIIT Activity Centre...</p>"⟩]
          ++ ["<p>my own text</p>"].map Download.NavAction.edit
          ++ [Download.NavAction.back,
              Download.NavAction.selectTemplate
                ⟨"app_ltr", "Appointment Letter Template",
                  "Standard format for new staff or faculty.",
                  "<p>Dear [Name],</p><p>We are pleased to offer you the position of [Title] at the KIIT Activity Centre...</p>"⟩])
      = ⟨ActiveView.editor,
          some ⟨"app_ltr", "Appointment Letter Template",
            "Standard format for new staff or faculty.",
            "<p>Dear [Name],</p><p>We are pleased to offer you the position of [Title] at the KIIT Activity Centre...</p>"⟩,
          some "<p>Dear [Name],</p><p>We are pleased to offer you the position of [Title] at the KIIT Activity Centre...</p>"⟩ :=
  ⟨by decide, rfl,
    reselect_resets_content _ ["<p>my own text</p>"] Download.appInit
      (by decide) rfl⟩

/-- Claim C10: a query consisting only of whitespace characters trims to the
empty string, so `handleSearch` treats it as the empty query and returns the
full fixed catalog in original order. -/
theorem whitespace_query_returns_catalog (query : String)
    (h : ∀ c ∈ query.data, c.isWhitespace) :
    Download.handleSearch query = Download.TEMPLATES := by
  have h1 : query.data.dropWhile Char.isWhitespace = [] :=
    List.dropWhile_eq_nil_iff.mpr h
  have htrim : jsTrim query = "" := by
    simp [jsTrim, jsTrimList, h1]
  simp [Download.handleSearch, htrim]

/-- Witness for the C10 theorem at the one-space query. -/
theorem whitespace_query_returns_catalog_witness :
    (∀ c ∈ (" " : String).data, c.isWhitespace) ∧
    Download.handleSearch " " = Download.TEMPLATES :=
  ⟨by decide, whitespace_query_returns_catalog " " (by decide)⟩

end UniDoc
